import Mathlib

/-!
Verification of the arcade-heartbeat engagement decision engine.

This file shallowly embeds the viewer history store (`heartbeat/database.py`),
the decision engine (`heartbeat/engine.py`) and the subscription rendering of
the notifier (`heartbeat/notifier.py`), and proves or refutes the specified
properties about them.

Modelling conventions:
- `datetime` timestamps are integers counting seconds; `timedelta.days` is
  floor division by 86400 (`Int.fdiv`), matching Python's `timedelta`
  normalisation, and `int(x)` of a nonnegative minute count is truncation
  (`Int.div`).
- Comparisons of the form `(now - t).total_seconds() / 60 < m` (exact real
  arithmetic on integer-second timestamps with an integer threshold `m`) are
  embedded as the equivalent `now - t < m * 60`.
- Python dictionaries and the SQLite `viewers` table are association lists
  keyed by the lowercased username; `setEntry` is the upsert.
- sqlite3 errors raised by a store call are modelled by an explicit
  `Option StoreError` injection point in `onMessage`; the Python code wraps no
  call in `try`, so an injected error aborts the handler exactly as the
  exception would.
-/

namespace Heartbeat

/-- A row of the `viewers` table (`database.py`, class `Viewer`). -/
structure Viewer where
  username : String
  firstSeen : Int
  lastSeen : Int
  messageCount : Int
  streamCount : Int
  currentStreamId : Option String
deriving DecidableEq, Repr

/-- The persistent store: the `viewers` table keyed by lowercased username. -/
abbrev ViewerDb := List (String × Viewer)

/-- `Viewer.days_since_last_seen`: `(now - last_seen).days`, i.e. floor
division of the gap by 86400 seconds. `now` is passed explicitly. -/
def Viewer.daysSinceLastSeen (v : Viewer) (now : Int) : Int :=
  Int.fdiv (now - v.lastSeen) 86400

/-- `Viewer.is_regular(threshold=3)` from `database.py`. -/
def Viewer.isRegular (v : Viewer) (threshold : Int := 3) : Bool :=
  decide (threshold ≤ v.streamCount)

/-- Upsert into an association list: replaces the value at the key in place,
or appends a fresh entry (SQL `INSERT` / `UPDATE ... WHERE username = ?`). -/
def setEntry {α : Type} : List (String × α) → String → α → List (String × α)
  | [], k, v => [(k, v)]
  | (k', v') :: rest, k, v =>
      if k' = k then (k, v) :: rest else (k', v') :: setEntry rest k v

/-- Python `str.lower()` (ASCII usernames), written as a structural map so
that it reduces in the kernel. -/
def lowercase (s : String) : String :=
  String.mk (s.data.map Char.toLower)

/-- What `ViewerDatabase.record_message` hands back: the (re-read) viewer row,
the two flags, the `_days_away` attribute stuffed onto the returned object
(present exactly when `is_returning` is true), and the updated table. -/
structure RecordResult where
  viewer : Viewer
  isNewViewer : Bool
  isReturningRegular : Bool
  daysAwayAttr : Option Int
  db : ViewerDb
deriving DecidableEq, Repr

/-- `ViewerDatabase.record_message` (`database.py` lines 126-203).
`streamId` is the per-process `self.stream_id`; `now` is `datetime.now()`. -/
def recordMessage (db : ViewerDb) (streamId : String) (now : Int)
    (username : String) : RecordResult :=
  let username := lowercase username
  match List.lookup username db with
  | none =>
      -- Brand new viewer: INSERT ... VALUES (?, now, now, 1, 1, stream_id)
      let v : Viewer := ⟨username, now, now, 1, 1, some streamId⟩
      ⟨v, true, false, none, setEntry db username v⟩
  | some existing =>
      let isNewStream : Bool := decide (existing.currentStreamId ≠ some streamId)
      let previousLastSeen := existing.lastSeen
      let daysAway := Int.fdiv (now - previousLastSeen) 86400
      let updated : Viewer :=
        if isNewStream then
          { existing with
            lastSeen := now
            messageCount := existing.messageCount + 1
            streamCount := existing.streamCount + 1
            currentStreamId := some streamId }
        else
          { existing with
            lastSeen := now
            messageCount := existing.messageCount + 1 }
      -- is_returning = is_new_stream and days_away >= 2 and existing.is_regular()
      -- NOTE: the thresholds 2 and 3 are hardcoded here in the source; the
      -- configured thresholds never reach this function.
      let isReturning : Bool := isNewStream && decide (2 ≤ daysAway) && existing.isRegular
      ⟨updated, false, isReturning,
        if isReturning then some daysAway else none,
        setEntry db username updated⟩

/-- A notification request issued by the engine to the sink. -/
inductive Notification where
  | chatQuiet (minutes : Int) (prompt : String)
  | viewerReturn (username : String) (daysAgo : Int) (streamCount : Int) (prompt : String)
  | viewerMilestone (username : String) (streamCount : Int)
deriving DecidableEq, Repr

/-- A failure raised by the persistence layer (sqlite3 errors). -/
inductive StoreError where
  | ioFailure
  | corruption
deriving DecidableEq, Repr

/-- The engine's configuration-derived fields (`DecisionEngine.__init__`),
with the documented defaults. -/
structure EngineConfig where
  chatQuietMinutes : Int := 5
  regularViewerStreams : Int := 3
  regularAwayDays : Int := 2
  loyaltyMilestones : List Int := [5, 10, 25, 50, 100]
  chatQuietCooldown : Int := 10
  viewerWelcomeCooldown : Int := 0
  notifyRaids : Bool := true
  notifySubs : Bool := true
  notifyLoyaltyMilestones : Bool := true
deriving DecidableEq, Repr

/-- The engine's in-memory state (`DecisionEngine.__init__`, state tracking). -/
structure EngineState where
  lastChatMessageTime : Int
  lastChatQuietNotification : Option Int
  welcomedViewers : List (String × Int)
  celebratedMilestones : List (String × Int)
deriving DecidableEq, Repr

instance descDecidable : DecidableRel (fun a b : Int => b ≤ a) :=
  fun a b => inferInstanceAs (Decidable (b ≤ a))

instance descTotal : IsTotal Int (fun a b : Int => b ≤ a) :=
  ⟨fun a b => le_total b a⟩

instance descTrans : IsTrans Int (fun a b : Int => b ≤ a) :=
  ⟨fun _ _ _ h1 h2 => le_trans h2 h1⟩

/-- The loop in `_check_loyalty_milestone` that scans
`sorted(self.loyalty_milestones, reverse=True)` and keeps the first milestone
not exceeding the stream count. -/
def reachedMilestone (milestones : List Int) (streamCount : Int) : Option Int :=
  (List.insertionSort (fun a b : Int => b ≤ a) milestones).find?
    (fun m => decide (m ≤ streamCount))

/-- `DecisionEngine._check_loyalty_milestone` (`engine.py` lines 242-280):
returns the updated engine state and the notifications sent. -/
def checkLoyaltyMilestone (cfg : EngineConfig) (st : EngineState) (v : Viewer) :
    EngineState × List Notification :=
  let username := lowercase v.username
  let streamCount := v.streamCount
  match reachedMilestone cfg.loyaltyMilestones streamCount with
  | none => (st, [])
  | some m =>
      let lastCelebrated := (List.lookup username st.celebratedMilestones).getD 0
      if m ≤ lastCelebrated then (st, [])
      else if streamCount ≠ m then (st, [])
      else
        ({ st with celebratedMilestones := setEntry st.celebratedMilestones username m },
         [Notification.viewerMilestone v.username streamCount])

/-- `DecisionEngine._check_chat_quiet` (`engine.py` lines 132-170). The
`prompt` argument stands for the randomly chosen prompt-library string. -/
def checkChatQuiet (cfg : EngineConfig) (st : EngineState) (now : Int)
    (prompt : String) : EngineState × List Notification :=
  if now - st.lastChatMessageTime < cfg.chatQuietMinutes * 60 then (st, [])
  else
    let cooldownBlocked : Bool :=
      match st.lastChatQuietNotification with
      | some t => decide (now - t < cfg.chatQuietCooldown * 60)
      | none => false
    if cooldownBlocked then (st, [])
    else
      ({ st with lastChatQuietNotification := some now },
       [Notification.chatQuiet (Int.tdiv (now - st.lastChatMessageTime) 60) prompt])

/-- The per-viewer welcome-cooldown test inside `on_message`
(`engine.py` lines 205-211): suppress when the viewer was welcomed and the
cooldown is positive and not yet elapsed. -/
def welcomeSuppressed (cfg : EngineConfig) (welcomed : List (String × Int))
    (now : Int) (username : String) : Bool :=
  match List.lookup (lowercase username) welcomed with
  | some lastWelcomed =>
      decide (0 < cfg.viewerWelcomeCooldown) &&
        decide (now - lastWelcomed < cfg.viewerWelcomeCooldown * 60)
  | none => false

/-- Result of a completed (non-raising) `on_message` call. -/
structure MessageOutcome where
  state : EngineState
  db : ViewerDb
  notifications : List Notification
deriving DecidableEq, Repr

/-- The tail shared by every non-raising, non-owner path of `on_message`:
the final `if self.notify_loyalty_milestones` block. -/
def milestonePhase (cfg : EngineConfig) (st : EngineState) (db : ViewerDb)
    (v : Viewer) (notifs : List Notification) : MessageOutcome :=
  if cfg.notifyLoyaltyMilestones then
    let r := checkLoyaltyMilestone cfg st v
    ⟨r.1, db, notifs ++ r.2⟩
  else ⟨st, db, notifs⟩

/-- `DecisionEngine.on_message` (`engine.py` lines 172-240). `storeFailure`
injects a sqlite3 error raised by `record_message`; there is no `try` in the
handler, so such an error propagates to the caller. `returnPrompt` stands for
the randomly chosen welcome-back prompt. -/
def onMessage (cfg : EngineConfig) (st : EngineState) (db : ViewerDb)
    (streamId : String) (now : Int) (username content : String)
    (isStreamer : Bool) (storeFailure : Option StoreError)
    (returnPrompt : String) : Except StoreError MessageOutcome :=
  -- Update last message time (resets the quiet timer) -- before the owner test
  let st1 := { st with lastChatMessageTime := now }
  if isStreamer then Except.ok ⟨st1, db, []⟩
  else
    match storeFailure with
    | some e => Except.error e
    | none =>
        let r := recordMessage db streamId now username
        if r.isNewViewer then
          -- new viewer: log only, then the milestone block
          Except.ok (milestonePhase cfg st1 r.db r.viewer [])
        else if r.isReturningRegular then
          if welcomeSuppressed cfg st1.welcomedViewers now username then
            -- early return: the milestone block below is skipped
            Except.ok ⟨st1, r.db, []⟩
          else
            let daysAway := r.daysAwayAttr.getD (r.viewer.daysSinceLastSeen now)
            if cfg.regularAwayDays ≤ daysAway then
              let st2 := { st1 with
                welcomedViewers := setEntry st1.welcomedViewers (lowercase username) now }
              Except.ok (milestonePhase cfg st2 r.db r.viewer
                [Notification.viewerReturn username daysAway r.viewer.streamCount returnPrompt])
            else
              Except.ok (milestonePhase cfg st1 r.db r.viewer [])
        else
          Except.ok (milestonePhase cfg st1 r.db r.viewer [])

/-- Repeated `record_message` calls for one viewer inside one session. -/
def runSession (db : ViewerDb) (streamId : String) (username : String) :
    List Int → ViewerDb
  | [] => db
  | t :: ts => runSession (recordMessage db streamId t username).db streamId username ts

/-- One attributed chat message, as the store sees it. -/
structure ChatEvent where
  username : String
  time : Int
  streamId : String
deriving DecidableEq, Repr

/-- Replay a sequence of attributed messages against the store. -/
def runTrace : ViewerDb → List ChatEvent → ViewerDb
  | db, [] => db
  | db, e :: es => runTrace (recordMessage db e.streamId e.time e.username).db es

/-- The record invariant together with an upper time bound on `last_seen`. -/
def DbInv (db : ViewerDb) (t : Int) : Prop :=
  ∀ u v, List.lookup u db = some v →
    1 ≤ v.streamCount ∧ v.streamCount ≤ v.messageCount ∧
      v.firstSeen ≤ v.lastSeen ∧ v.lastSeen ≤ t

/-- Replay of `_check_loyalty_milestone` over a run of stream counts of a
single viewer, collecting the counts at which a notification fired. -/
def milestoneScenario (cfg : EngineConfig) (counts : List Int) : List Int :=
  (counts.foldl
    (fun (p : EngineState × List Int) sc =>
      let r := checkLoyaltyMilestone cfg p.1 ⟨"alice", 0, 0, sc, sc, some "S"⟩
      (r.1, p.2 ++ r.2.map (fun _ => sc)))
    (⟨0, none, [], []⟩, [])).2

/-- Configuration with milestones `[5, 10]` (claim C2's scenario). -/
def cfg510 : EngineConfig := { loyaltyMilestones := [5, 10] }

/-- Configuration with `chat_quiet_minutes=5`, `chat_quiet_cooldown=10`
(claim C3's scenario; these are also the defaults). -/
def quietCfg : EngineConfig := { chatQuietMinutes := 5, chatQuietCooldown := 10 }

/-- Python f-string rendering of an optional string (`None` prints as
`"None"`). -/
def optStr : Option String → String
  | some s => s
  | none => "None"

/-- Python f-string rendering of an optional integer. -/
def optIntStr : Option Int → String
  | some n => toString n
  | none => "None"

/-- Python truthiness of an optional string (`None` and `""` are falsy). -/
def pyTruthy : Option String → Bool
  | some s => decide (s ≠ "")
  | none => false

/-- Python `a or b` over two optional strings, rendered by an f-string. -/
def pyOrStr (a b : Option String) : String :=
  if pyTruthy a then optStr a else optStr b

/-- `Notifier.notify_subscription` (`notifier.py` lines 171-227): the
`(title, message, tag)` triple handed to `_send`. -/
def notifySubscription (username : Option String) (subType subPlan : String)
    (months : Int) (gifter : Option String) (giftCount : Option Int)
    (streak : Int) (totalGifts : Int) : String × String × String :=
  let uStr := optStr username
  let gStr := optStr gifter
  if subType = "sub" then
    ("NEW SUB: " ++ uStr, subPlan, "subscription")
  else if subType = "resub" then
    let streakText := if 0 < streak then " (" ++ toString streak ++ " mo streak)" else ""
    ("RESUB: " ++ uStr,
     toString months ++ " months - " ++ subPlan ++ streakText, "subscription")
  else if subType = "gift" then
    let totalText := if 0 < totalGifts then " (" ++ toString totalGifts ++ " total)" else ""
    ("GIFT: " ++ gStr, "Gifted to " ++ uStr ++ " - " ++ subPlan ++ totalText,
     "subscription")
  else if subType = "gift_bomb" then
    let totalText := if 0 < totalGifts then " (" ++ toString totalGifts ++ " total)" else ""
    ("GIFT BOMB: " ++ gStr,
     optIntStr giftCount ++ "x " ++ subPlan ++ " subs!" ++ totalText, "subscription")
  else if subType = "prime_upgrade" then
    ("UPGRADE: " ++ uStr, "Prime to " ++ subPlan, "subscription")
  else if subType = "gift_upgrade" then
    let fromText := if pyTruthy gifter then " (gift from " ++ gStr ++ ")" else ""
    ("UPGRADE: " ++ uStr, "Continued sub" ++ fromText ++ " - " ++ subPlan,
     "subscription")
  else
    ("SUB: " ++ pyOrStr username gifter, subPlan, "subscription")

/-- Modelled from the spec: the returning-regular formula of section 4.1 with
the *configured* thresholds, for comparison with `recordMessage`. -/
def specIsReturningRegular (regularAwayDays regularViewerStreams : Int)
    (isNewSession : Bool) (daysAway streamCountBefore : Int) : Bool :=
  isNewSession && decide (regularAwayDays ≤ daysAway) &&
    decide (regularViewerStreams ≤ streamCountBefore)

/-! ## Helper lemmas -/

theorem lookup_setEntry {α : Type} (db : List (String × α)) (k q : String) (v : α) :
    List.lookup q (setEntry db k v) = if q = k then some v else List.lookup q db := by
  induction db with
  | nil =>
      simp only [setEntry, List.lookup]
      by_cases hq : q = k
      · simp [hq]
      · simp [hq, beq_eq_false_iff_ne.mpr hq]
  | cons hd tl ih =>
      obtain ⟨k', v'⟩ := hd
      simp only [setEntry]
      by_cases hk : k' = k
      · subst hk
        by_cases hq : q = k'
        · subst hq
          simp [List.lookup]
        · simp [List.lookup, beq_eq_false_iff_ne.mpr hq, hq]
      · simp only [if_neg hk]
        by_cases hq : q = k'
        · subst hq
          have hqk : ¬q = k := hk
          simp [List.lookup, hqk]
        · simp [List.lookup, beq_eq_false_iff_ne.mpr hq, ih]

theorem find_desc_eq_some (sc : Int) :
    ∀ (l : List Int), l.Sorted (fun a b : Int => b ≤ a) → ∀ m : Int,
      (l.find? (fun x => decide (x ≤ sc)) = some m ↔
        m ∈ l ∧ m ≤ sc ∧ ∀ x ∈ l, x ≤ sc → x ≤ m)
  | [], _, m => by simp
  | a :: l, h, m => by
      rw [List.sorted_cons] at h
      obtain ⟨ha, hl⟩ := h
      by_cases hasc : a ≤ sc
      · rw [List.find?_cons_of_pos _ (by simpa using hasc)]
        constructor
        · intro hsome
          injection hsome with hm
          subst hm
          refine ⟨List.mem_cons_self _ _, hasc, ?_⟩
          intro x hx _
          rcases List.mem_cons.mp hx with rfl | hx
          · exact le_refl _
          · exact ha x hx
        · rintro ⟨hm, hmsc, hmax⟩
          have h1 : a ≤ m := hmax a (List.mem_cons_self _ _) hasc
          exact congrArg some (le_antisymm h1 (by
            rcases List.mem_cons.mp hm with rfl | hm
            · exact le_refl _
            · exact ha m hm))
      · rw [List.find?_cons_of_neg _ (by simpa using hasc)]
        rw [find_desc_eq_some sc l hl m]
        constructor
        · rintro ⟨hm, hmsc, hmax⟩
          refine ⟨List.mem_cons_of_mem _ hm, hmsc, ?_⟩
          intro x hx hxsc
          rcases List.mem_cons.mp hx with rfl | hx
          · exact absurd hxsc hasc
          · exact hmax x hx hxsc
        · rintro ⟨hm, hmsc, hmax⟩
          rcases List.mem_cons.mp hm with rfl | hm
          · exact absurd hmsc hasc
          · exact ⟨hm, hmsc, fun x hx hxsc => hmax x (List.mem_cons_of_mem _ hx) hxsc⟩

theorem reachedMilestone_eq_some (ms : List Int) (sc m : Int) :
    reachedMilestone ms sc = some m ↔
      (m ∈ ms ∧ m ≤ sc ∧ ∀ x ∈ ms, x ≤ sc → x ≤ m) := by
  have hperm := List.perm_insertionSort (fun a b : Int => b ≤ a) ms
  have hsorted := List.sorted_insertionSort (fun a b : Int => b ≤ a) ms
  rw [reachedMilestone, find_desc_eq_some sc _ hsorted m]
  constructor <;> rintro ⟨h1, h2, h3⟩
  · exact ⟨hperm.mem_iff.mp h1, h2, fun x hx hxsc => h3 x (hperm.mem_iff.mpr hx) hxsc⟩
  · exact ⟨hperm.mem_iff.mpr h1, h2, fun x hx hxsc => h3 x (hperm.mem_iff.mp hx) hxsc⟩

/-! ## Claims -/

/-- C1: the claim says `record_message` flags a returning regular using the
*configured* thresholds (`regular_away_days`, `regular_viewer_streams`), and
in particular with `regular_viewer_streams=1, regular_away_days=2` a viewer
with `stream_count=1` returning in a new session 3 days later is flagged. In
the code (`database.py` line 197) the thresholds are hardcoded to
`days_away >= 2` and `is_regular()`'s default of 3 streams, so that viewer is
NOT flagged even though the spec formula with the configured thresholds says
it must be: `is_returning_regular` comes back `false` while the stream count
does advance to 2 and the pre-update gap is 3 days. -/
theorem c1_returning_regular_ignores_config :
    (recordMessage [("alice", ⟨"alice", 0, 0, 1, 1, some "A"⟩)] "B" 259200 "alice").isReturningRegular
        = false
    ∧ (recordMessage [("alice", ⟨"alice", 0, 0, 1, 1, some "A"⟩)] "B" 259200 "alice").viewer.streamCount
        = 2
    ∧ Int.fdiv (259200 - 0) 86400 = 3
    ∧ specIsReturningRegular 2 1 true 3 1 = true := by decide

/-- C4 (counterexample): a failing store write during a non-owner `on_message`
propagates the sqlite error past the entry point instead of being swallowed. -/
theorem c4_counterexample :
    onMessage ({} : EngineConfig) ⟨0, none, [], []⟩ [] "S" 0 "bob" "hi" false
        (some StoreError.ioFailure) "p" =
      Except.error StoreError.ioFailure := rfl

/-- C4 (amended): `on_message` wraps nothing in a handler, so a store failure
during a non-owner message always propagates the error past the entry
point's boundary; the event's remaining side effects are skipped only because
the handler is aborted. -/
theorem c4_store_failure_propagates :
    ∀ (cfg : EngineConfig) (st : EngineState) (db : ViewerDb) (sid : String)
      (now : Int) (u c prompt : String) (e : StoreError),
      onMessage cfg st db sid now u c false (some e) prompt = Except.error e := by
  intro cfg st db sid now u c prompt e
  rfl

/-- C5 (counterexample): a message with `is_streamer=true` DOES update the
engine's `last_chat_message_time` (from 0 to 100 here), because the update
happens before the owner check in `on_message`. -/
theorem c5_counterexample :
    (onMessage ({} : EngineConfig) ⟨0, none, [], []⟩ [] "S" 100 "owner" "hi" true none "p" =
      Except.ok ⟨⟨100, none, [], []⟩, [], []⟩)
    ∧ (decide ((100 : Int) = 0)) = false := ⟨rfl, rfl⟩

/-- C5 (amended): an owner message creates or modifies no viewer record,
emits no notification, and leaves every engine state field unchanged EXCEPT
`last_chat_message_time`, which is set to `now` — the quiet timer tracks
messages from anyone, the channel owner included. -/
theorem c5_owner_message_effects :
    ∀ (cfg : EngineConfig) (st : EngineState) (db : ViewerDb) (sid : String)
      (now : Int) (u c : String) (sf : Option StoreError) (prompt : String),
      onMessage cfg st db sid now u c true sf prompt =
        Except.ok ⟨{ st with lastChatMessageTime := now }, db, []⟩ := by
  intro cfg st db sid now u c sf prompt
  rfl

/-- C7: a never-seen identity yields `is_new_viewer=true`,
`is_returning_regular=false`, and a fresh record with `message_count=1`,
`stream_count=1`, `current_session_id` the active session and
`first_seen = last_seen = now`. -/
theorem c7_new_viewer :
    ∀ (db : ViewerDb) (sid : String) (now : Int) (u : String),
      List.lookup (lowercase u) db = none →
      recordMessage db sid now u =
        ⟨⟨lowercase u, now, now, 1, 1, some sid⟩, true, false, none,
          setEntry db (lowercase u) ⟨lowercase u, now, now, 1, 1, some sid⟩⟩ := by
  intro db sid now u h
  simp only [recordMessage, h]

/-- C7 witness: concrete first-ever message. -/
theorem c7_witness :
    List.lookup (lowercase "Bob") ([] : ViewerDb) = none ∧
    recordMessage [] "A" 5 "Bob" =
      ⟨⟨"bob", 5, 5, 1, 1, some "A"⟩, true, false, none,
        [("bob", ⟨"bob", 5, 5, 1, 1, some "A"⟩)]⟩ :=
  ⟨rfl, c7_new_viewer [] "A" 5 "Bob" rfl⟩

/-- C10: for any `sub_type` outside the six recognized kinds,
`notify_subscription` still emits via the generic fallback branch: title
`SUB: ` followed by Python's `username or gifter`, body the plan, dedup tag
`subscription`. -/
theorem c10_subscription_fallback :
    ∀ (username : Option String) (subType subPlan : String) (months : Int)
      (gifter : Option String) (giftCount : Option Int) (streak totalGifts : Int),
      subType ∉ (["sub", "resub", "gift", "gift_bomb", "prime_upgrade",
        "gift_upgrade"] : List String) →
      notifySubscription username subType subPlan months gifter giftCount streak totalGifts =
        ("SUB: " ++ pyOrStr username gifter, subPlan, "subscription") := by
  intro username subType subPlan months gifter giftCount streak totalGifts h
  simp only [List.mem_cons, List.not_mem_nil, or_false, not_or] at h
  obtain ⟨h1, h2, h3, h4, h5, h6⟩ := h
  simp [notifySubscription, h1, h2, h3, h4, h5, h6]

/-- C10 witness: an unrecognized sub kind hits the fallback. -/
theorem c10_witness :
    notifySubscription (some "alice") "mystery" "Tier 1" 1 none none 0 0 =
      ("SUB: alice", "Tier 1", "subscription") :=
  c10_subscription_fallback (some "alice") "mystery" "Tier 1" 1 none none 0 0 (by decide)

/-- C2: after a message updates a viewer record, the loyalty rule fires iff
the greatest configured milestone `m` with `stream_count >= m` (the first
conjunct characterizes `reachedMilestone` as exactly that greatest value)
satisfies `stream_count = m` exactly and `m` exceeds the highest milestone
already celebrated for the viewer (default 0); on firing it records `m` as
celebrated. With milestones `[5,10]` a run of counts 5,6,7,8,9,10 and a
later look at 5 fires exactly at 5 and at 10. -/
theorem c2_milestone_fire_iff :
    (∀ (ms : List Int) (sc m : Int),
        reachedMilestone ms sc = some m ↔
          (m ∈ ms ∧ m ≤ sc ∧ ∀ x ∈ ms, x ≤ sc → x ≤ m))
    ∧ (∀ (cfg : EngineConfig) (st : EngineState) (v : Viewer) (m : Int),
        reachedMilestone cfg.loyaltyMilestones v.streamCount = some m →
          (((checkLoyaltyMilestone cfg st v).2 ≠ [] ↔
              (v.streamCount = m ∧
                (List.lookup (lowercase v.username) st.celebratedMilestones).getD 0 < m))
            ∧ ((checkLoyaltyMilestone cfg st v).2 ≠ [] →
                (checkLoyaltyMilestone cfg st v).1.celebratedMilestones =
                  setEntry st.celebratedMilestones (lowercase v.username) m)))
    ∧ (∀ (cfg : EngineConfig) (st : EngineState) (v : Viewer),
        reachedMilestone cfg.loyaltyMilestones v.streamCount = none →
          checkLoyaltyMilestone cfg st v = (st, []))
    ∧ milestoneScenario cfg510 [5, 6, 7, 8, 9, 10, 5] = [5, 10] := by
  refine ⟨reachedMilestone_eq_some, ?_, ?_, by decide⟩
  · intro cfg st v m h
    simp only [checkLoyaltyMilestone, h]
    by_cases hcel : m ≤ (List.lookup (lowercase v.username) st.celebratedMilestones).getD 0
    · rw [if_pos hcel]
      refine ⟨?_, fun hne => absurd rfl hne⟩
      constructor
      · intro hne
        exact absurd rfl hne
      · rintro ⟨_, hlt⟩
        exact absurd hcel (not_le.mpr hlt)
    · rw [if_neg hcel]
      by_cases hsc : v.streamCount = m
      · rw [if_neg (fun hne => hne hsc)]
        refine ⟨?_, fun _ => rfl⟩
        constructor
        · intro _
          exact ⟨hsc, not_le.mp hcel⟩
        · intro _
          exact List.cons_ne_nil _ _
      · rw [if_pos hsc]
        refine ⟨?_, fun hne => absurd rfl hne⟩
        constructor
        · intro hne
          exact absurd rfl hne
        · rintro ⟨heq, _⟩
          exact absurd heq hsc
  · intro cfg st v h
    simp only [checkLoyaltyMilestone, h]

/-- C2 witness: with milestones `[5,10]` and nothing celebrated, a viewer
whose stream count just reached 5 fires and 5 is recorded as celebrated. -/
theorem c2_witness :
    (checkLoyaltyMilestone cfg510 ⟨0, none, [], []⟩
        ⟨"alice", 0, 0, 5, 5, some "S"⟩).1.celebratedMilestones = [("alice", 5)] :=
  (c2_milestone_fire_iff.2.1 cfg510 ⟨0, none, [], []⟩
    ⟨"alice", 0, 0, 5, 5, some "S"⟩ 5 (by decide)).2 (by decide)

/-- C3: the periodic quiet check fires iff the quiet threshold has elapsed
since the last message AND (no quiet notification was ever sent OR the
cooldown has elapsed since the last one); on firing it stamps the
notification time with `now`, otherwise it changes nothing. With
`chat_quiet_minutes=5`, `chat_quiet_cooldown=10` and no activity since time
0, a check at minute 5 fires, a check at minute 8 does not, and a check at
minute 16 fires again. (Timestamps in seconds; `q*60 <= now-t` is the
exact-arithmetic form of `(now-t)/60 >= q`.) -/
theorem c3_quiet_fire_iff :
    (∀ (cfg : EngineConfig) (st : EngineState) (now : Int) (prompt : String),
        ((checkChatQuiet cfg st now prompt).2 ≠ [] ↔
          (cfg.chatQuietMinutes * 60 ≤ now - st.lastChatMessageTime ∧
            (st.lastChatQuietNotification = none ∨
              ∃ t, st.lastChatQuietNotification = some t ∧
                cfg.chatQuietCooldown * 60 ≤ now - t)))
        ∧ ((checkChatQuiet cfg st now prompt).2 ≠ [] →
            (checkChatQuiet cfg st now prompt).1 =
              { st with lastChatQuietNotification := some now })
        ∧ ((checkChatQuiet cfg st now prompt).2 = [] →
            (checkChatQuiet cfg st now prompt).1 = st))
    ∧ ((checkChatQuiet quietCfg ⟨0, none, [], []⟩ 300 "p").1 = ⟨0, some 300, [], []⟩
        ∧ (checkChatQuiet quietCfg ⟨0, none, [], []⟩ 300 "p").2 ≠ []
        ∧ checkChatQuiet quietCfg ⟨0, some 300, [], []⟩ 480 "p" = (⟨0, some 300, [], []⟩, [])
        ∧ (checkChatQuiet quietCfg ⟨0, some 300, [], []⟩ 960 "p").2 ≠ []) := by
  constructor
  · intro cfg st now prompt
    obtain ⟨lm, lq, w, c⟩ := st
    simp only [checkChatQuiet]
    by_cases hA : now - lm < cfg.chatQuietMinutes * 60
    · rw [if_pos hA]
      refine ⟨?_, fun hne => absurd rfl hne, fun _ => rfl⟩
      constructor
      · intro hne
        exact absurd rfl hne
      · rintro ⟨hq, _⟩
        exact absurd hA (not_lt.mpr hq)
    · rw [if_neg hA]
      cases lq with
      | none =>
          rw [if_neg (by simp)]
          refine ⟨?_, fun _ => rfl, fun hemp => absurd hemp (List.cons_ne_nil _ _)⟩
          constructor
          · intro _
            exact ⟨not_lt.mp hA, Or.inl rfl⟩
          · intro _
            exact List.cons_ne_nil _ _
      | some t =>
          by_cases hc : now - t < cfg.chatQuietCooldown * 60
          · rw [if_pos (by simpa using hc)]
            refine ⟨?_, fun hne => absurd rfl hne, fun _ => rfl⟩
            constructor
            · intro hne
              exact absurd rfl hne
            · rintro ⟨_, hor⟩
              rcases hor with hnone | ⟨t', ht', hcd⟩
              · exact absurd hnone (by simp)
              · injection ht' with ht'
                subst ht'
                exact absurd hc (not_lt.mpr hcd)
          · rw [if_neg (by simpa using hc)]
            refine ⟨?_, fun _ => rfl, fun hemp => absurd hemp (List.cons_ne_nil _ _)⟩
            constructor
            · intro _
              exact ⟨not_lt.mp hA, Or.inr ⟨t, rfl, not_lt.mp hc⟩⟩
            · intro _
              exact List.cons_ne_nil _ _
  · exact ⟨by decide, by decide, by decide, by decide⟩

/-- C3 witness: the quiet rule fires at minute 5 with no prior notification,
stamping the notification time. -/
theorem c3_witness :
    (checkChatQuiet quietCfg ⟨0, none, [], []⟩ 300 "q").1 = ⟨0, some 300, [], []⟩ :=
  (c3_quiet_fire_iff.1 quietCfg ⟨0, none, [], []⟩ 300 "q").2.1 (by decide)

/-- C6 (counterexample): a returning regular ("alice": 4 prior streams, 3
days away, new session) whose welcome is suppressed by a 60-minute welcome
cooldown (welcomed 60 seconds ago) gets NO milestone check: `on_message`
returns early with no notifications and an unchanged celebrated map, even
though the check evaluated on the updated record (stream count now 5,
milestone 5) would have fired. -/
theorem c6_counterexample :
    (onMessage { viewerWelcomeCooldown := 60 } ⟨0, none, [("alice", 259140)], []⟩
        [("alice", ⟨"alice", 0, 0, 4, 4, some "A"⟩)] "B" 259200 "alice" "hi" false none "p" =
      Except.ok ⟨⟨259200, none, [("alice", 259140)], []⟩,
        [("alice", ⟨"alice", 0, 259200, 5, 5, some "B"⟩)], []⟩)
    ∧ ((checkLoyaltyMilestone { viewerWelcomeCooldown := 60 }
          ⟨259200, none, [("alice", 259140)], []⟩ ⟨"alice", 0, 259200, 5, 5, some "B"⟩).2 =
        [Notification.viewerMilestone "alice" 5])
    ∧ (decide (([] : List Notification) = [Notification.viewerMilestone "alice" 5])) = false :=
  ⟨rfl, rfl, rfl⟩

/-- C6 (amended): with the loyalty toggle enabled, the milestone check is
evaluated against the updated record after every non-owner message that
updates a record — new viewers and returning viewers alike — EXCEPT when a
returning regular's welcome is suppressed by the per-viewer welcome
cooldown, in which case `on_message` returns early and the check is
skipped. -/
theorem c6_milestone_check_unless_suppressed :
    ∀ (cfg : EngineConfig) (st : EngineState) (db : ViewerDb) (sid : String)
      (now : Int) (u c prompt : String),
      cfg.notifyLoyaltyMilestones = true →
      ((recordMessage db sid now u).isReturningRegular = true →
        welcomeSuppressed cfg st.welcomedViewers now u = false) →
      ∃ stMid notifs,
        onMessage cfg st db sid now u c false none prompt =
          Except.ok ⟨(checkLoyaltyMilestone cfg stMid (recordMessage db sid now u).viewer).1,
            (recordMessage db sid now u).db,
            notifs ++ (checkLoyaltyMilestone cfg stMid (recordMessage db sid now u).viewer).2⟩ := by
  intro cfg st db sid now u c prompt htog hsup
  have hmp : ∀ (stX : EngineState) (ns : List Notification),
      milestonePhase cfg stX (recordMessage db sid now u).db
          (recordMessage db sid now u).viewer ns =
        ⟨(checkLoyaltyMilestone cfg stX (recordMessage db sid now u).viewer).1,
          (recordMessage db sid now u).db,
          ns ++ (checkLoyaltyMilestone cfg stX (recordMessage db sid now u).viewer).2⟩ := by
    intro stX ns
    simp [milestonePhase, htog]
  simp only [onMessage, Bool.false_eq_true, if_false]
  by_cases hnew : (recordMessage db sid now u).isNewViewer = true
  · rw [if_pos hnew, hmp]
    exact ⟨{ st with lastChatMessageTime := now }, [], rfl⟩
  · rw [if_neg hnew]
    by_cases hret : (recordMessage db sid now u).isReturningRegular = true
    · rw [if_pos hret]
      have hws : welcomeSuppressed cfg st.welcomedViewers now u = false := hsup hret
      rw [show ({ st with lastChatMessageTime := now } : EngineState).welcomedViewers
            = st.welcomedViewers from rfl, hws]
      simp only [Bool.false_eq_true, if_false]
      by_cases hdays : cfg.regularAwayDays ≤
          ((recordMessage db sid now u).daysAwayAttr.getD
            ((recordMessage db sid now u).viewer.daysSinceLastSeen now))
      · rw [if_pos hdays, hmp]
        refine ⟨_, _, rfl⟩
      · rw [if_neg hdays, hmp]
        exact ⟨{ st with lastChatMessageTime := now }, [], rfl⟩
    · rw [if_neg hret, hmp]
      exact ⟨{ st with lastChatMessageTime := now }, [], rfl⟩

/-- C6 witness: a concrete new-viewer message on which the milestone check
runs against the updated record. -/
theorem c6_witness :
    ∃ stMid notifs,
      onMessage ({} : EngineConfig) ⟨0, none, [], []⟩ [] "S" 7 "bob" "hi" false none "p" =
        Except.ok ⟨(checkLoyaltyMilestone ({} : EngineConfig) stMid
            (recordMessage [] "S" 7 "bob").viewer).1,
          (recordMessage [] "S" 7 "bob").db,
          notifs ++ (checkLoyaltyMilestone ({} : EngineConfig) stMid
            (recordMessage [] "S" 7 "bob").viewer).2⟩ :=
  c6_milestone_check_unless_suppressed ({} : EngineConfig) ⟨0, none, [], []⟩ [] "S" 7
    "bob" "hi" "p" rfl (by decide)

/-- Any `record_message` call leaves the (lowercased) caller's row present,
re-read as the returned viewer, whose session id is now the active one. -/
theorem recordMessage_stores (db : ViewerDb) (sid : String) (now : Int) (u : String) :
    List.lookup (lowercase u) (recordMessage db sid now u).db =
        some (recordMessage db sid now u).viewer
    ∧ (recordMessage db sid now u).viewer.currentStreamId = some sid := by
  simp only [recordMessage]
  cases hdb : List.lookup (lowercase u) db with
  | none =>
      simp [lookup_setEntry]
  | some existing =>
      by_cases hcur : existing.currentStreamId = some sid
      · have : decide (existing.currentStreamId ≠ some sid) = false := by simp [hcur]
        simp [this, lookup_setEntry, hcur]
      · have : decide (existing.currentStreamId ≠ some sid) = true := by simp [hcur]
        simp [this, lookup_setEntry]

/-- One same-session `record_message`: message count goes up by one, stream
count and session id stay. -/
theorem recordMessage_same_session (db : ViewerDb) (sid : String) (now : Int)
    (u : String) (v : Viewer) (hl : List.lookup (lowercase u) db = some v)
    (hc : v.currentStreamId = some sid) :
    (recordMessage db sid now u).viewer.messageCount = v.messageCount + 1
    ∧ (recordMessage db sid now u).viewer.streamCount = v.streamCount
    ∧ (recordMessage db sid now u).viewer.currentStreamId = some sid := by
  have hdec : decide (v.currentStreamId ≠ some sid) = false := by simp [hc]
  simp [recordMessage, hl, hdec, hc]

/-- Same-session calls never change the stored stream count. -/
theorem runSession_preserves (sid u : String) :
    ∀ (ts : List Int) (db : ViewerDb) (v : Viewer),
      List.lookup (lowercase u) db = some v → v.currentStreamId = some sid →
      ∃ v', List.lookup (lowercase u) (runSession db sid u ts) = some v'
        ∧ v'.streamCount = v.streamCount ∧ v'.currentStreamId = some sid
  | [], db, v, hl, hc => ⟨v, hl, rfl, hc⟩
  | t :: ts, db, v, hl, hc => by
      obtain ⟨hstore, hcur⟩ := recordMessage_stores db sid t u
      obtain ⟨_, hsc, _⟩ := recordMessage_same_session db sid t u v hl hc
      obtain ⟨v', hl', hsc', hc'⟩ :=
        runSession_preserves sid u ts (recordMessage db sid t u).db
          (recordMessage db sid t u).viewer hstore hcur
      exact ⟨v', hl', by rw [hsc', hsc], hc'⟩

/-- C8: a viewer whose record already carries the active session id gets
`message_count + 1` and an unchanged `stream_count` from each
`record_message` call; and after any first call in a session, any number of
further same-session calls leave the stored stream count at its
post-first-call value, so the session increment happens at most once. -/
theorem c8_same_session :
    (∀ (db : ViewerDb) (sid : String) (now : Int) (u : String) (v : Viewer),
        List.lookup (lowercase u) db = some v → v.currentStreamId = some sid →
        (recordMessage db sid now u).viewer.messageCount = v.messageCount + 1
        ∧ (recordMessage db sid now u).viewer.streamCount = v.streamCount)
    ∧ (∀ (db : ViewerDb) (sid : String) (t : Int) (u : String) (ts : List Int),
        ∃ v', List.lookup (lowercase u)
            (runSession (recordMessage db sid t u).db sid u ts) = some v'
          ∧ v'.streamCount = (recordMessage db sid t u).viewer.streamCount) := by
  constructor
  · intro db sid now u v hl hc
    obtain ⟨h1, h2, _⟩ := recordMessage_same_session db sid now u v hl hc
    exact ⟨h1, h2⟩
  · intro db sid t u ts
    obtain ⟨hstore, hcur⟩ := recordMessage_stores db sid t u
    obtain ⟨v', hl', hsc', _⟩ :=
      runSession_preserves sid u ts (recordMessage db sid t u).db
        (recordMessage db sid t u).viewer hstore hcur
    exact ⟨v', hl', hsc'⟩

/-- C8 witness: a same-session message bumps `message_count` only. -/
theorem c8_witness :
    (recordMessage [("bob", ⟨"bob", 0, 0, 3, 2, some "S"⟩)] "S" 50 "Bob").viewer.messageCount = 4
    ∧ (recordMessage [("bob", ⟨"bob", 0, 0, 3, 2, some "S"⟩)] "S" 50 "Bob").viewer.streamCount = 2 :=
  c8_same_session.1 [("bob", ⟨"bob", 0, 0, 3, 2, some "S"⟩)] "S" 50 "Bob"
    ⟨"bob", 0, 0, 3, 2, some "S"⟩ (by decide) (by decide)

/-- The empty store satisfies the invariant at any time. -/
theorem DbInv_empty (t : Int) : DbInv [] t := by
  intro u v h
  simp [List.lookup] at h

/-- One `record_message` call preserves the record invariant, moving the time
bound to the call time. -/
theorem recordMessage_inv (db : ViewerDb) (sid : String) (now : Int) (u : String)
    (t : Int) (hinv : DbInv db t) (ht : t ≤ now) :
    DbInv (recordMessage db sid now u).db now := by
  intro q v hlook
  simp only [recordMessage] at hlook
  cases hdb : List.lookup (lowercase u) db with
  | none =>
      rw [hdb] at hlook
      simp only [lookup_setEntry] at hlook
      by_cases hq : q = lowercase u
      · rw [if_pos hq] at hlook
        injection hlook with hlook
        subst hlook
        exact ⟨le_refl _, le_refl _, le_refl _, le_refl _⟩
      · rw [if_neg hq] at hlook
        obtain ⟨h1, h2, h3, h4⟩ := hinv q v hlook
        exact ⟨h1, h2, h3, le_trans h4 ht⟩
  | some existing =>
      rw [hdb] at hlook
      simp only [lookup_setEntry] at hlook
      obtain ⟨h1, h2, h3, h4⟩ := hinv (lowercase u) existing hdb
      by_cases hq : q = lowercase u
      · rw [if_pos hq] at hlook
        injection hlook with hlook
        subst hlook
        by_cases hb : decide (existing.currentStreamId ≠ some sid) = true
        · rw [if_pos hb]
          exact ⟨by dsimp only; omega, by dsimp only; omega, by dsimp only; omega, le_refl _⟩
        · rw [if_neg hb]
          exact ⟨by dsimp only; omega, by dsimp only; omega, by dsimp only; omega, le_refl _⟩
      · rw [if_neg hq] at hlook
        obtain ⟨g1, g2, g3, g4⟩ := hinv q v hlook
        exact ⟨g1, g2, g3, le_trans g4 ht⟩

/-- Replaying messages with non-decreasing timestamps keeps the invariant. -/
theorem runTrace_inv :
    ∀ (es : List ChatEvent) (db : ViewerDb) (t : Int),
      DbInv db t → List.Chain (fun a b : Int => a ≤ b) t (es.map ChatEvent.time) →
      ∃ t2, DbInv (runTrace db es) t2
  | [], _, t, h, _ => ⟨t, h⟩
  | e :: es, db, t, h, hch => by
      rw [List.map_cons, List.chain_cons] at hch
      obtain ⟨hte, hch2⟩ := hch
      exact runTrace_inv es (recordMessage db e.streamId e.time e.username).db e.time
        (recordMessage_inv db e.streamId e.time e.username t h hte) hch2

/-- C9: every record reachable via `record_message` from an empty store by a
message trace with non-decreasing timestamps satisfies the invariant:
`stream_count >= 1`, `message_count >= stream_count`,
`last_seen >= first_seen`. -/
theorem c9_invariant :
    ∀ (es : List ChatEvent) (t0 : Int),
      List.Chain (fun a b : Int => a ≤ b) t0 (es.map ChatEvent.time) →
      ∀ u v, List.lookup u (runTrace [] es) = some v →
        1 ≤ v.streamCount ∧ v.streamCount ≤ v.messageCount ∧ v.firstSeen ≤ v.lastSeen := by
  intro es t0 hch u v hlook
  obtain ⟨t2, hinv⟩ := runTrace_inv es [] t0 (DbInv_empty t0) hch
  obtain ⟨h1, h2, h3, _⟩ := hinv u v hlook
  exact ⟨h1, h2, h3⟩

/-- C9 witness: a two-message trace for one viewer. -/
theorem c9_witness :
    1 ≤ (Viewer.mk "alice" 0 100 2 1 (some "S")).streamCount
    ∧ (Viewer.mk "alice" 0 100 2 1 (some "S")).streamCount ≤
        (Viewer.mk "alice" 0 100 2 1 (some "S")).messageCount
    ∧ (Viewer.mk "alice" 0 100 2 1 (some "S")).firstSeen ≤
        (Viewer.mk "alice" 0 100 2 1 (some "S")).lastSeen :=
  c9_invariant [⟨"alice", 0, "S"⟩, ⟨"alice", 100, "S"⟩] 0
    (List.Chain.cons (by decide) (List.Chain.cons (by decide) List.Chain.nil)) "alice"
    (Viewer.mk "alice" 0 100 2 1 (some "S")) (by decide)

end Heartbeat
